import Mathlib

/-
Verification of the concurrent-subsystem layer of the "Accepted" text editor.

Shallow embedding of:
  * src/buffer_mode.rs : the macro-recording wrapper around the mode state
    machine (`BufferMode::event`);
  * src/buffer.rs      : compile submission de-duplication (`Buffer::compile`),
    save (`Buffer::save`) and compile-result polling
    (`Buffer::poll_compile_message`);
  * src/lsp.rs         : the completion-poll drain loop (`LSPClient::poll`) and
    the reader worker's wire-framing loop (`LSPClient::start`);
  * src/main.rs        : the per-frame background-fill budget.

Machine integers (the document version id, byte counts) are modelled as `Nat`:
none of the verified paths can overflow them.  Channels are modelled as lists
of buffered values in arrival order; `try_recv` pops the head.
-/

/-! ## Mode state machine (src/buffer_mode.rs)

The `Mode` trait object lives in `mode.rs`; `BufferMode::event` only observes
the `Transition` it returns, so the mode is kept abstract: a type `M` of mode
states together with its `event` method (which may mutate the mode and the
buffer and returns a `Transition`), the `init` hook, and the `Normal`
constructors used in the `Return` arm.  `E` is the type of input events,
`B` the type of the text buffer. -/

/-- `Transition` (mode.rs): the output of `Mode::event`, as matched by
`BufferMode::event` in buffer_mode.rs lines 32-67. -/
inductive Transition (M : Type) where
  | Exit : Transition M
  | Trans : M → Transition M
  | DoMacro : Transition M
  | Return : Option String → Bool → Transition M
  | RecordMacro : M → Transition M
  | Nothing : Transition M
deriving DecidableEq, Repr

/-- The abstract interface of the `Mode` trait as used by `BufferMode`:
`event` is `Mode::event(&mut self, buf: &mut Buffer, event) -> Transition`
(returning the mutated mode, the mutated buffer and the transition),
`init` is `Mode::init(&mut self, buf: &mut Buffer)`, and
`normal` builds `Normal::with_message(s)` / `Normal::default()`. -/
structure ModeOps (E B M : Type) where
  event : M → B → E → M × B × Transition M
  init : M → B → M × B
  normal : Option String → M

/-- The `BufferMode` struct (buffer_mode.rs lines 5-11).  `dot_macro` and
`recording_macro` are written `dotMacro` / `recordingMacro`. -/
structure BufferMode (E B M : Type) where
  buf : B
  mode : M
  is_recording : Bool
  dotMacro : List E
  recordingMacro : List E
deriving DecidableEq, Repr

/-- The `Transition::Return` arm of `BufferMode::event`
(buffer_mode.rs lines 45-50 and line 50): commit the recording into
`dot_macro` when the mode asked for it, a recording is in progress and the
recording buffer is non-empty (`mem::swap` followed by `clear` amounts to
moving the recording buffer into the committed slot and emptying it), and
force the recording flag off. -/
def returnStep {E B M : Type} (s : BufferMode E B M) (commit : Bool) :
    BufferMode E B M :=
  let s :=
    if s.is_recording && !(s.recordingMacro.isEmpty) && commit then
      { s with dotMacro := s.recordingMacro, recordingMacro := [] }
    else s
  { s with is_recording := false }

/-- `BufferMode::event` (buffer_mode.rs lines 28-69).  The Rust function is
recursive through the `DoMacro` arm (`self.event(event)` for each recorded
event) and nothing in the source bounds that recursion, so the embedding
carries a fuel parameter that is consumed only when entering a replay; an
exhausted fuel leaves the state unchanged (a modelling artifact never hit by
the theorems below, whose hypotheses bound the replay depth).  The returned
`Bool` is the Rust return value (`true` = exit requested). -/
def BufferMode.event {E B M : Type} (ops : ModeOps E B M) :
    Nat → BufferMode E B M → E → BufferMode E B M × Bool
  | fuel, s, e =>
    -- lines 29-31: if recording, push the (cloned) event first
    let s :=
      if s.is_recording then
        { s with recordingMacro := s.recordingMacro ++ [e] }
      else s
    match ops.event s.mode s.buf e with
    | (m, b, Transition.Exit) =>
      ({ s with mode := m, buf := b }, true)
    | (m, b, Transition.Trans t) =>
      let s := { s with mode := m, buf := b }
      let tb := ops.init t s.buf
      ({ s with mode := tb.1, buf := tb.2 }, false)
    | (m, b, Transition.DoMacro) =>
      let s := { s with mode := m, buf := b }
      -- lines 40-44: replay `dot_macro.clone()`, discarding nested results
      match fuel with
      | 0 => (s, false)
      | fuel + 1 =>
        (s.dotMacro.foldl (fun st ev => (BufferMode.event ops fuel st ev).1) s,
          false)
    | (m, b, Transition.Return msg commit) =>
      let s := { s with mode := m, buf := b }
      let s := returnStep s commit
      let tb := ops.init (ops.normal msg) s.buf
      ({ s with mode := tb.1, buf := tb.2 }, false)
    | (m, b, Transition.RecordMacro t) =>
      -- lines 59-65: set the flag, clear the recording, record the trigger
      let s :=
        { s with
            mode := m, buf := b, is_recording := true, recordingMacro := [e] }
      let tb := ops.init t s.buf
      ({ s with mode := tb.1, buf := tb.2 }, false)
    | (m, b, Transition.Nothing) =>
      ({ s with mode := m, buf := b }, false)

/-- Feeding a sequence of top-level input events to `BufferMode::event`. -/
def runEvents {E B M : Type} (ops : ModeOps E B M) (fuel : Nat)
    (s : BufferMode E B M) (es : List E) : BufferMode E B M :=
  es.foldl (fun st e => (BufferMode.event ops fuel st e).1) s

/-- A transition is quiet when it is `Nothing` or `Trans`: it neither touches
the macro state nor replays events. -/
def isQuietTr {M : Type} : Transition M → Bool
  | Transition.Trans _ => true
  | Transition.Nothing => true
  | _ => false

/-- `quietTrace ops fuel s es` holds when, processing `es` from state `s`,
every event is answered by the then-current mode with a quiet transition. -/
def quietTrace {E B M : Type} (ops : ModeOps E B M) (fuel : Nat) :
    BufferMode E B M → List E → Bool
  | _, [] => true
  | s, e :: es =>
    isQuietTr (ops.event s.mode s.buf e).2.2 &&
      quietTrace ops fuel ((BufferMode.event ops fuel s e).1) es

/-! ## Compile pipeline state of a buffer (src/buffer.rs)

`Buffer` is reduced to the fields the compile pipeline reads and writes:
`storage` (present / absent, and whether `Storage::save(&core)` reports
success), whether a compiler is configured, `core.buffer_changed()` (the
monotone document version id, an opaque `Id` in the source), and the three
compile bookkeeping fields.  `Buffer::compile` is additionally observed
through the request it hands to the compiler worker, if any
(`Compiler::compile(path, id)` in compiler.rs). -/

/-- `CompileId` (compiler.rs, as constructed in buffer.rs lines 274-285):
a document version id paired with the optimization flag.
`Id::default()` is 0. -/
structure CompileId where
  id : Nat
  is_optimize : Bool
deriving DecidableEq, Repr

/-- `CompileResult` (compiler.rs, as read in buffer.rs): a success flag and
the diagnostic messages, each with a line number and a text (the source span
is not consulted by the claims). -/
structure CompileResult where
  success : Bool
  messages : List (Nat × String)
deriving DecidableEq, Repr

/-- The compile-pipeline slice of `Buffer` (buffer.rs lines 63-82).
`storage = some r` models a present storage backend whose `save(&core)` call
reports `r`; `none` models an absent backend (`self.storage == None`, in
which case `self.path()` is also `None`). -/
structure Buffer where
  storage : Option Bool
  hasCompiler : Bool
  version : Nat
  lastCompilerSubmit : CompileId
  lastCompilerCompiled : CompileId
  lastCompilerResult : Option CompileResult
deriving DecidableEq, Repr

/-- `Buffer::compile` (buffer.rs lines 273-292).  Returns the updated buffer
and the request handed to the compiler worker (`none` when the call returned
early on the de-duplication check or when no path / no compiler is
configured). -/
def Buffer.compile (b : Buffer) (is_optimize : Bool) :
    Buffer × Option CompileId :=
  if b.lastCompilerSubmit = ⟨b.version, is_optimize⟩ then
    (b, none)
  else
    let b := { b with lastCompilerSubmit := ⟨b.version, is_optimize⟩ }
    if b.storage.isSome && b.hasCompiler then
      (b, some ⟨b.version, is_optimize⟩)
    else
      (b, none)

/-- `Buffer::save` (buffer.rs lines 202-212): ask the storage backend to save
(`false` when absent); compile exactly when the save succeeded; return the
saved flag (third component) together with the updated buffer and the compile
request handed on, if any. -/
def Buffer.save (b : Buffer) (is_optimize : Bool) :
    Buffer × Option CompileId × Bool :=
  let saved :=
    match b.storage with
    | some r => r
    | none => false
  if saved then
    let br := Buffer.compile b is_optimize
    (br.1, br.2, true)
  else
    (b, none, false)

/-- `Buffer::poll_compile_message` (buffer.rs lines 315-322): when a compiler
is configured, drain the worker's result channel (`msgs`, in arrival order)
and store each `(id, result)` pair as it is received, the last one winning. -/
def Buffer.pollCompileMessage (b : Buffer)
    (msgs : List (CompileId × CompileResult)) : Buffer :=
  if b.hasCompiler then
    msgs.foldl
      (fun st p =>
        { st with lastCompilerCompiled := p.1, lastCompilerResult := some p.2 })
      b
  else b

/-! ## Completion polling (src/lsp.rs lines 157-163)

The completion-result channel is a list of buffered batches in arrival order;
`try_recv` pops the head and fails on the empty list. -/

/-- The drain loop of `LSPClient::poll`: `res` starts as `None` and is
overwritten by every buffered batch in arrival order; the second component is
what remains buffered afterwards. -/
def pollAux {α : Type} : Option α → List α → Option α × List α
  | res, [] => (res, [])
  | _, c :: q => pollAux (some c) q

/-- `LSPClient::poll` (lsp.rs lines 157-163) on a channel buffering `q`. -/
def LSPClient.poll {α : Type} (q : List α) : Option α × List α :=
  pollAux none q

/-! ## Per-frame background-fill budget (src/main.rs lines 78-82) -/

/-- `std::time::Duration`: seconds plus a sub-second nanosecond part. -/
structure Duration where
  secs : Nat
  nanos : Nat
deriving DecidableEq, Repr

def NANOS_PER_SEC : Nat := 1000000000

/-- `Duration::from_secs`. -/
def Duration.from_secs (n : Nat) : Duration := ⟨n, 0⟩

/-- `impl Div<u32> for Duration` (Rust std): integer division of the seconds,
with the remainder carried into the nanosecond part and truncated there.
(For a normalized dividend and the divisors used here the result needs no
re-normalization.) -/
def Duration.divU32 (d : Duration) (rhs : Nat) : Duration :=
  let secs := d.secs / rhs
  let carry := d.secs - secs * rhs
  let extra_nanos := carry * NANOS_PER_SEC / rhs
  ⟨secs, d.nanos / rhs + extra_nanos⟩

def Duration.toNanos (d : Duration) : Nat := d.secs * NANOS_PER_SEC + d.nanos

/-- `let frame = Duration::from_secs(1) / 60;` (main.rs line 78). -/
def frame : Duration := Duration.divU32 (Duration.from_secs 1) 60

/-- The budget the main loop passes to `extend_cache_duration` every frame
(main.rs line 82): it is the `frame` value itself. -/
def extendCacheBudget : Duration := frame

/-! ## Reader-worker wire framing (src/lsp.rs lines 107-144)

One iteration of the reader worker's message loop, over an abstract view of
the byte stream: the header lines read by `read_line` up to the stream's end
(an exhausted list models `read_line` returning 0 bytes, i.e. EOF), and the
payload that `read_exact` + `String::from_utf8` would produce (`none` when
the read fails or the bytes are not valid UTF-8). -/

/-- How one reader-loop iteration can end. -/
inductive FrameResult where
  /-- `read_line` returned 0 bytes: `return Ok(())`, the worker ends
  cleanly. -/
  | eofClean : FrameResult
  /-- a `?` operator propagated an error: the closure returns `Err` and the
  worker thread ends quietly. -/
  | errReturn : FrameResult
  /-- a panic: `assert_eq!(parts.len(), 2)` on a malformed header line, or
  the `headers["Content-Length"]` index on a missing key.  The panic unwinds
  the worker thread only; it is not propagated to the client's caller. -/
  | panicked : FrameResult
  /-- a complete message with UTF-8 payload `s` was framed; the loop
  dispatches it and continues. -/
  | msg : String → FrameResult
deriving DecidableEq, Repr

/-- `str::trim`: strip leading and trailing whitespace.  Header lines are
modelled as their character sequences (`String` is a wrapper around
`List Char`), over which the framing functions compute. -/
def trimChars (cs : List Char) : List Char :=
  ((cs.dropWhile Char.isWhitespace).reverse.dropWhile Char.isWhitespace).reverse

/-- `str::split(": ")`: split on every (left-to-right, non-overlapping)
occurrence of the two-character separator `": "`. -/
def splitOnCS : List Char → List (List Char)
  | [] => [[]]
  | ':' :: ' ' :: rest => [] :: splitOnCS rest
  | c :: rest =>
    match splitOnCS rest with
    | [] => [[c]]
    | p :: ps => (c :: p) :: ps

/-- The inner header loop (lsp.rs lines 112-124): read lines until a blank
one, trimming each and splitting it on `": "`; exactly two parts are
asserted (`assert_eq!`, a panic otherwise).  Later headers are prepended so
that a lookup finds the most recently inserted binding, as with
`HashMap::insert`. -/
def readHeaders (acc : List (List Char × List Char)) :
    List (List Char) → FrameResult ⊕ List (List Char × List Char)
  | [] => Sum.inl FrameResult.eofClean
  | line :: rest =>
    let h := trimChars line
    if h = [] then
      Sum.inr acc
    else
      match splitOnCS h with
      | [k, v] => readHeaders ((k, v) :: acc) rest
      | _ => Sum.inl FrameResult.panicked

/-- `str::parse::<usize>` on the `Content-Length` value: an optional leading
`+` sign followed by at least one ASCII digit (overflow, impossible for real
message lengths, is not modelled). -/
def parseUsize (s : List Char) : Option Nat :=
  let s :=
    match s with
    | '+' :: rest => rest
    | _ => s
  if s ≠ [] && s.all Char.isDigit then
    some (s.foldl (fun n c => n * 10 + (c.toNat - 48)) 0)
  else none

/-- The characters of the mandatory `Content-Length` header key. -/
def clKey : List Char := "Content-Length".data

/-- One iteration of the reader worker's message loop (lsp.rs lines 110-142):
frame the headers, index the mandatory `Content-Length` (a panic when
absent), parse it (`?` on failure), read and UTF-8-decode that many payload
bytes (`?` on failure; `payload` is the decoded text, `none` when the read
fails or the bytes are not valid UTF-8).  JSON parsing of the decoded message
(lines 129-141) ignores undecodable payloads and cannot end the loop, so it
is outside this frame step. -/
def processFrame (headerLines : List (List Char)) (payload : Option String) :
    FrameResult :=
  match readHeaders [] headerLines with
  | Sum.inl r => r
  | Sum.inr headers =>
    match headers.lookup clKey with
    | none => FrameResult.panicked
    | some v =>
      match parseUsize v with
      | none => FrameResult.errReturn
      | some _ =>
        match payload with
        | none => FrameResult.errReturn
        | some s => FrameResult.msg s

/-- The reader worker's outer loop over a stream of frames: a framed message
is dispatched and the loop continues; anything else ends the loop with that
outcome, and an exhausted stream is EOF. -/
def readerLoop : List (List (List Char) × Option String) → FrameResult
  | [] => FrameResult.eofClean
  | f :: rest =>
    match processFrame f.1 f.2 with
    | FrameResult.msg _ => readerLoop rest
    | r => r

/-! ## A small concrete mode, used to evaluate the theorems on closed runs

Events are numbers, the buffer is trivial, mode states are numbers
(0 plays Normal; `normal` returns 0).  Mode 0 answers event 100 with
`RecordMacro 1`; mode 1 answers 9 with a committing `Return` and 8 with a
non-committing one; mode 2 answers 7 with `DoMacro`; every other event is
consumed silently. -/
def demoOps : ModeOps Nat Unit Nat :=
  ⟨fun m b e =>
    (m, b,
      if m == 0 && e == 100 then Transition.RecordMacro 1
      else if m == 1 && e == 9 then Transition.Return none true
      else if m == 1 && e == 8 then Transition.Return none false
      else if m == 2 && e == 7 then Transition.DoMacro
      else Transition.Nothing),
    fun t b => (t, b),
    fun _ => 0⟩

/-! ## Macro-recording lemmas about `BufferMode::event` -/

/-- A quiet event (answered by `Nothing` or `Trans`) while recording: the
event is appended to the recording buffer and the rest of the macro state is
untouched. -/
theorem quiet_step {E B M : Type} (ops : ModeOps E B M) (fuel : Nat)
    (s : BufferMode E B M) (e : E) (hrec : s.is_recording = true)
    (hq : isQuietTr (ops.event s.mode s.buf e).2.2 = true) :
    ((BufferMode.event ops fuel s e).1).is_recording = true ∧
    ((BufferMode.event ops fuel s e).1).recordingMacro
        = s.recordingMacro ++ [e] ∧
    ((BufferMode.event ops fuel s e).1).dotMacro = s.dotMacro := by
  rcases htr : ops.event s.mode s.buf e with ⟨m, b, tr⟩
  rw [htr] at hq
  cases tr with
  | Trans t => simp [BufferMode.event, hrec, htr]
  | Nothing => simp [BufferMode.event, hrec, htr]
  | _ => simp [isQuietTr] at hq

/-- Running a quiet trace while recording appends exactly the fed events to
the recording buffer and leaves the committed macro and the flag alone. -/
theorem quiet_run {E B M : Type} (ops : ModeOps E B M) (fuel : Nat)
    (es : List E) (s : BufferMode E B M) (hrec : s.is_recording = true)
    (hq : quietTrace ops fuel s es = true) :
    (runEvents ops fuel s es).is_recording = true ∧
    (runEvents ops fuel s es).recordingMacro = s.recordingMacro ++ es ∧
    (runEvents ops fuel s es).dotMacro = s.dotMacro := by
  induction es generalizing s with
  | nil => simp [runEvents, hrec]
  | cons e es ih =>
    rw [quietTrace, Bool.and_eq_true] at hq
    have hstep := quiet_step ops fuel s e hrec hq.1
    have hrest := ih ((BufferMode.event ops fuel s e).1) hstep.1 hq.2
    have hfold : runEvents ops fuel s (e :: es)
        = runEvents ops fuel ((BufferMode.event ops fuel s e).1) es := by
      simp [runEvents]
    rw [hfold]
    refine ⟨hrest.1, ?_, ?_⟩
    · rw [hrest.2.1, hstep.2.1, List.append_assoc]
      rfl
    · rw [hrest.2.2, hstep.2.2]

/-- A `RecordMacro` answer: the flag is raised and the recording buffer is
reset to just the triggering event; the committed macro is untouched. -/
theorem record_step {E B M : Type} (ops : ModeOps E B M) (fuel : Nat)
    (s : BufferMode E B M) (e : E) (t : M)
    (h : (ops.event s.mode s.buf e).2.2 = Transition.RecordMacro t) :
    ((BufferMode.event ops fuel s e).1).is_recording = true ∧
    ((BufferMode.event ops fuel s e).1).recordingMacro = [e] ∧
    ((BufferMode.event ops fuel s e).1).dotMacro = s.dotMacro := by
  rcases htr : ops.event s.mode s.buf e with ⟨m, b, tr⟩
  rw [htr] at h
  cases tr <;> simp at h
  cases hr : s.is_recording <;> simp [BufferMode.event, hr, htr, h]

/-- A committing `Return` answered while recording: the committed macro
becomes the recording buffer with the triggering event appended, the
recording buffer is emptied and the flag is forced off. -/
theorem return_commit_step {E B M : Type} (ops : ModeOps E B M) (fuel : Nat)
    (s : BufferMode E B M) (e : E) (msg : Option String)
    (hrec : s.is_recording = true)
    (h : (ops.event s.mode s.buf e).2.2 = Transition.Return msg true) :
    ((BufferMode.event ops fuel s e).1).dotMacro
        = s.recordingMacro ++ [e] ∧
    ((BufferMode.event ops fuel s e).1).recordingMacro = [] ∧
    ((BufferMode.event ops fuel s e).1).is_recording = false := by
  rcases htr : ops.event s.mode s.buf e with ⟨m, b, tr⟩
  rw [htr] at h
  cases tr <;> simp at h
  rcases h with ⟨h1, h2⟩
  cases hrm : s.recordingMacro <;>
    simp [BufferMode.event, hrec, htr, h1, h2, returnStep, hrm]

/-- C1: from a state with no recording in progress, an event answered with
`RecordMacro`, followed by edit events (each answered with a quiet `Nothing`
or `Trans`), followed by an event answered with `Return(_, commit_macro =
true)`, leaves the committed macro `dot_macro` equal to exactly the events
fed to `BufferMode::event`, from the `RecordMacro` trigger (inclusive, first)
up to and including the `Return` trigger, and leaves the recording buffer
empty. -/
theorem c1_record_commit_exact {E B M : Type} (ops : ModeOps E B M)
    (fuel : Nat) (s0 s1 s2 s3 : BufferMode E B M) (e0 : E) (t : M)
    (es : List E) (msg : Option String) (eR : E)
    (h0 : s0.is_recording = false)
    (h1 : (ops.event s0.mode s0.buf e0).2.2 = Transition.RecordMacro t)
    (hs1 : s1 = (BufferMode.event ops fuel s0 e0).1)
    (h2 : quietTrace ops fuel s1 es = true)
    (hs2 : s2 = runEvents ops fuel s1 es)
    (h3 : (ops.event s2.mode s2.buf eR).2.2 = Transition.Return msg true)
    (hs3 : s3 = (BufferMode.event ops fuel s2 eR).1) :
    s3.dotMacro = e0 :: (es ++ [eR]) ∧ s3.recordingMacro = [] := by
  have hrec := record_step ops fuel s0 e0 t h1
  rw [← hs1] at hrec
  have hmid := quiet_run ops fuel es s1 hrec.1 h2
  rw [← hs2] at hmid
  have hret := return_commit_step ops fuel s2 eR msg hmid.1 h3
  rw [← hs3] at hret
  refine ⟨?_, hret.2.1⟩
  rw [hret.1, hmid.2.1, hrec.2.1]
  simp

/-- Evaluation of `c1_record_commit_exact` on a closed run of `demoOps`:
event 100 starts recording, event 5 is an edit, event 9 commits. -/
theorem c1_record_commit_exact_witness :
    ((BufferMode.event demoOps 1
        (runEvents demoOps 1
          (BufferMode.event demoOps 1
            (⟨(), 0, false, [], []⟩ : BufferMode Nat Unit Nat) 100).1
          [5]) 9).1).dotMacro = 100 :: ([5] ++ [9]) ∧
    ((BufferMode.event demoOps 1
        (runEvents demoOps 1
          (BufferMode.event demoOps 1
            (⟨(), 0, false, [], []⟩ : BufferMode Nat Unit Nat) 100).1
          [5]) 9).1).recordingMacro = [] :=
  c1_record_commit_exact demoOps 1 ⟨(), 0, false, [], []⟩ _ _ _ 100 1 [5]
    none 9 rfl (by decide) rfl (by decide) rfl (by decide) rfl

/-- Unfolding the `DoMacro` arm once, for a state whose recording flag is
true: the trigger is pushed, then the committed events are replayed (with one
unit of recursion depth consumed). -/
theorem domacro_step {E B M : Type} (ops : ModeOps E B M) (fuel : Nat)
    (sb : B) (sm : M) (sd srm : List E) (e : E) (m : M) (b : B)
    (h : ops.event sm sb e = (m, b, Transition.DoMacro)) :
    (BufferMode.event ops (fuel + 1) ⟨sb, sm, true, sd, srm⟩ e).1
      = runEvents ops fuel ⟨b, m, true, sd, srm ++ [e]⟩ sd := by
  rw [BufferMode.event]
  simp [h, runEvents]

/-- C5 as stated is false on the code: `BufferMode::event` pushes every
incoming event onto the recording buffer before dispatching, and the
`DoMacro` arm re-feeds the committed events through `self.event`, so when the
recording flag is true at replay time the replayed events are appended.
Concretely: in state (mode 2, recording, `dot_macro = [3]`,
`recording_macro = [0]`), event 7 triggers `DoMacro` and the recording buffer
becomes `[0, 7, 3]` — it holds the replayed event 3, not just the trigger. -/
theorem c5_replay_recorded_counterexample :
    ((BufferMode.event demoOps 1
        (⟨(), 2, true, [3], [0]⟩ : BufferMode Nat Unit Nat) 7).1).recordingMacro
        = [0, 7, 3] ∧ ([0, 7, 3] : List Nat) ≠ [0, 7] := by
  constructor
  · decide
  · decide

/-- C5 amended: when an event is answered with `DoMacro` while the recording
flag is true, the replayed committed events are appended to the recording
buffer (after the trigger itself): if each replayed event is answered
quietly, the recording buffer afterwards is the old buffer, then the trigger,
then the whole committed macro.  (Replay is only unrecorded when the flag is
false and stays false during the replay.) -/
theorem c5_replay_appends_when_recording {E B M : Type} (ops : ModeOps E B M)
    (fuel : Nat) (s s' : BufferMode E B M) (e : E) (m : M) (b : B)
    (hrec : s.is_recording = true)
    (h : ops.event s.mode s.buf e = (m, b, Transition.DoMacro))
    (hq : quietTrace ops fuel
        (⟨b, m, true, s.dotMacro, s.recordingMacro ++ [e]⟩ :
          BufferMode E B M) s.dotMacro = true)
    (hs' : s' = (BufferMode.event ops (fuel + 1) s e).1) :
    s'.recordingMacro = s.recordingMacro ++ [e] ++ s.dotMacro := by
  subst hs'
  obtain ⟨sb, sm, sr, sd, srm⟩ := s
  dsimp only at hrec h hq ⊢
  subst hrec
  rw [domacro_step ops fuel sb sm sd srm e m b h]
  exact (quiet_run ops fuel sd ⟨b, m, true, sd, srm ++ [e]⟩ rfl hq).2.1

/-- Evaluation of `c5_replay_appends_when_recording` on a closed run of
`demoOps`. -/
theorem c5_replay_appends_when_recording_witness :
    ((BufferMode.event demoOps (0 + 1)
        (⟨(), 2, true, [3], [9, 9]⟩ : BufferMode Nat Unit Nat) 7).1).recordingMacro
        = [9, 9] ++ [7] ++ [3] :=
  c5_replay_appends_when_recording demoOps 0 ⟨(), 2, true, [3], [9, 9]⟩ _ 7 2 ()
    rfl (by decide) (by decide) rfl

/-- C6 as stated is false on the code: a non-committing `Return` sets the
recording flag to false but does *not* clear the recording buffer — lines
46-49 of buffer_mode.rs only touch it in the committing branch.  Concretely:
in state (mode 1, recording, `recording_macro = [100, 5]`), event 8 triggers
`Return(None, false)` and the recording buffer afterwards is `[100, 5, 8]`,
not empty. -/
theorem c6_noncommit_not_cleared_counterexample :
    ((BufferMode.event demoOps 1
        (⟨(), 1, true, [], [100, 5]⟩ : BufferMode Nat Unit Nat) 8).1).recordingMacro
        = [100, 5, 8] ∧ ([100, 5, 8] : List Nat) ≠ [] := by
  constructor
  · decide
  · decide

/-- C6 amended: on a non-committing `Return` while recording, the recording
buffer is not committed but also not cleared — it retains the recorded events
(including the `Return` trigger) until the next `RecordMacro` resets it; the
committed macro is unchanged and the recording flag is forced false. -/
theorem c6_noncommit_return_keeps_buffer {E B M : Type} (ops : ModeOps E B M)
    (fuel : Nat) (s s' : BufferMode E B M) (e : E) (msg : Option String)
    (hrec : s.is_recording = true)
    (h : (ops.event s.mode s.buf e).2.2 = Transition.Return msg false)
    (hs' : s' = (BufferMode.event ops fuel s e).1) :
    s'.recordingMacro = s.recordingMacro ++ [e] ∧
    s'.dotMacro = s.dotMacro ∧ s'.is_recording = false := by
  rcases htr : ops.event s.mode s.buf e with ⟨m, b, tr⟩
  rw [htr] at h
  cases tr <;> simp at h
  rcases h with ⟨h1, h2⟩
  subst hs'
  simp [BufferMode.event, hrec, htr, h1, h2, returnStep]

/-- Evaluation of `c6_noncommit_return_keeps_buffer` on a closed run of
`demoOps`. -/
theorem c6_noncommit_return_keeps_buffer_witness :
    ((BufferMode.event demoOps 1
        (⟨(), 1, true, [7], [2]⟩ : BufferMode Nat Unit Nat) 8).1).recordingMacro
        = [2] ++ [8] ∧
    ((BufferMode.event demoOps 1
        (⟨(), 1, true, [7], [2]⟩ : BufferMode Nat Unit Nat) 8).1).dotMacro = [7] ∧
    ((BufferMode.event demoOps 1
        (⟨(), 1, true, [7], [2]⟩ : BufferMode Nat Unit Nat) 8).1).is_recording
        = false :=
  c6_noncommit_return_keeps_buffer demoOps 1 ⟨(), 1, true, [7], [2]⟩ _ 8 none
    rfl (by decide) rfl

/-- C9: the committing branch of the `Return` arm (buffer_mode.rs lines
45-50) demands a non-empty recording buffer, so with the recording flag set
but the buffer empty a committing `Return` leaves the committed macro
`dot_macro` unchanged (and forces the flag off): an empty recording never
overwrites a previously committed macro.  (In a full `BufferMode::event` call
this state is shielded further: the entry push makes the buffer non-empty
whenever the flag is set.) -/
theorem c9_empty_recording_preserves_dot {E B M : Type}
    (s : BufferMode E B M) (hrec : s.is_recording = true)
    (hempty : s.recordingMacro = []) :
    (returnStep s true).dotMacro = s.dotMacro ∧
    (returnStep s true).is_recording = false := by
  simp [returnStep, hempty]

/-- Evaluation of `c9_empty_recording_preserves_dot` at a concrete state. -/
theorem c9_empty_recording_preserves_dot_witness :
    (returnStep (⟨(), 5, true, [4], []⟩ : BufferMode Nat Unit Nat) true).dotMacro
        = [4] ∧
    (returnStep (⟨(), 5, true, [4], []⟩ : BufferMode Nat Unit Nat) true).is_recording
        = false :=
  c9_empty_recording_preserves_dot ⟨(), 5, true, [4], []⟩ rfl rfl

/-! ## Compile-pipeline theorems -/

/-- C2: `Buffer::compile` de-duplicates on the last submitted
(version, optimize) pair.  Two consecutive calls with the same pair hand at
most one request to the compiler worker: the second call is a no-op (it
returns before submitting anything and changes nothing).  A call whose pair
differs from the last submitted one, made on a buffer with a path (storage)
and a configured compiler, does hand the request on. -/
theorem c2_compile_dedup (b : Buffer) (o : Bool) :
    Buffer.compile (Buffer.compile b o).1 o = ((Buffer.compile b o).1, none) ∧
    ((⟨b.version, o⟩ : CompileId) ≠ b.lastCompilerSubmit →
      b.storage.isSome = true → b.hasCompiler = true →
      (Buffer.compile b o).2 = some ⟨b.version, o⟩) := by
  constructor
  · by_cases h : b.lastCompilerSubmit = (⟨b.version, o⟩ : CompileId)
    · simp [Buffer.compile, h]
    · cases hsc : b.storage.isSome && b.hasCompiler <;>
        simp [Buffer.compile, h, hsc]
  · intro hne hs hc
    have h : ¬b.lastCompilerSubmit = (⟨b.version, o⟩ : CompileId) :=
      fun hx => hne hx.symm
    simp [Buffer.compile, h, hs, hc]

/-- Evaluation of `c2_compile_dedup` on a concrete buffer: version 1 was
never submitted, so the first call submits and the second is a no-op. -/
theorem c2_compile_dedup_witness :
    Buffer.compile
        (Buffer.compile ⟨some true, true, 1, ⟨0, false⟩, ⟨0, false⟩, none⟩
          false).1 false
      = ((Buffer.compile ⟨some true, true, 1, ⟨0, false⟩, ⟨0, false⟩, none⟩
          false).1, none) ∧
    (Buffer.compile ⟨some true, true, 1, ⟨0, false⟩, ⟨0, false⟩, none⟩
        false).2 = some ⟨1, false⟩ :=
  ⟨(c2_compile_dedup ⟨some true, true, 1, ⟨0, false⟩, ⟨0, false⟩, none⟩
      false).1,
    (c2_compile_dedup ⟨some true, true, 1, ⟨0, false⟩, ⟨0, false⟩, none⟩
      false).2 (by decide) rfl rfl⟩

/-- C4: `Buffer::poll_compile_message` stores the pair that arrived last,
in arrival order, whatever its id: with a compiler configured, draining a
non-empty buffered sequence leaves `last_compiler_compiled` and
`last_compiler_result` holding the final pair of the sequence, and draining
an empty one changes nothing. -/
theorem c4_poll_compile_last_received (b : Buffer)
    (msgs : List (CompileId × CompileResult)) (hc : b.hasCompiler = true) :
    (msgs = [] → Buffer.pollCompileMessage b msgs = b) ∧
    (∀ l p, msgs = l ++ [p] →
      (Buffer.pollCompileMessage b msgs).lastCompilerCompiled = p.1 ∧
      (Buffer.pollCompileMessage b msgs).lastCompilerResult = some p.2) := by
  constructor
  · intro h
    subst h
    simp [Buffer.pollCompileMessage]
  · intro l p h
    subst h
    simp [Buffer.pollCompileMessage, hc, List.foldl_append]

/-- Evaluation of `c4_poll_compile_last_received`: a result for the older id
1 arrives after a result for the newer id 2; the buffer ends up trusting the
older id's result (last received wins). -/
theorem c4_poll_compile_last_received_witness :
    (Buffer.pollCompileMessage ⟨none, true, 0, ⟨0, false⟩, ⟨0, false⟩, none⟩
        [(⟨2, false⟩, ⟨true, []⟩), (⟨1, false⟩, ⟨false, []⟩)]).lastCompilerCompiled
      = ⟨1, false⟩ ∧
    (Buffer.pollCompileMessage ⟨none, true, 0, ⟨0, false⟩, ⟨0, false⟩, none⟩
        [(⟨2, false⟩, ⟨true, []⟩), (⟨1, false⟩, ⟨false, []⟩)]).lastCompilerResult
      = some ⟨false, []⟩ :=
  (c4_poll_compile_last_received ⟨none, true, 0, ⟨0, false⟩, ⟨0, false⟩, none⟩
      [(⟨2, false⟩, ⟨true, []⟩), (⟨1, false⟩, ⟨false, []⟩)] rfl).2
    [(⟨2, false⟩, ⟨true, []⟩)] (⟨1, false⟩, ⟨false, []⟩) rfl

/-- C10: `Buffer::save` with no storage backend returns `false`, changes
nothing and hands no compile request on; and whenever `save` does hand a
compile request on, the storage backend reported a successful save. -/
theorem c10_save_without_storage (b : Buffer) (o : Bool) :
    (b.storage = none → Buffer.save b o = (b, none, false)) ∧
    ((Buffer.save b o).2.1.isSome = true → b.storage = some true) := by
  constructor
  · intro h
    simp [Buffer.save, h]
  · intro h
    rcases hs : b.storage with _ | r
    · rw [Buffer.save] at h
      simp [hs] at h
    · cases r
      · rw [Buffer.save] at h
        simp [hs] at h
      · rfl

/-- Evaluation of `c10_save_without_storage` on a buffer with no storage. -/
theorem c10_save_without_storage_witness :
    Buffer.save ⟨none, true, 3, ⟨0, false⟩, ⟨0, false⟩, none⟩ true
      = (⟨none, true, 3, ⟨0, false⟩, ⟨0, false⟩, none⟩, none, false) :=
  (c10_save_without_storage ⟨none, true, 3, ⟨0, false⟩, ⟨0, false⟩, none⟩
      true).1 rfl

/-! ## Completion-poll theorems -/

/-- The drain loop keeps the most recently received batch: its result is the
last element of the buffered queue when there is one, the starting value
otherwise, and it always empties the queue. -/
theorem pollAux_spec {α : Type} (q : List α) :
    ∀ res : Option α, pollAux res q = ((q.getLast?).elim res some, []) := by
  induction q with
  | nil => intro res; rfl
  | cons c q ih =>
    intro res
    rw [pollAux, ih (some c)]
    cases q with
    | nil => rfl
    | cons d q' =>
      rw [List.getLast?_cons_cons]
      cases h : (d :: q').getLast? with
      | none => simp at h
      | some x => rfl

/-- C3: `LSPClient::poll` never waits (it is a total function of the buffered
queue), drains every buffered completion batch, and returns exactly the last
batch in arrival order — `none` when nothing is buffered, earlier batches
discarded.  In particular, after two requests followed by two responses it
observes only whichever response was received last. -/
theorem c3_poll_latest_wins {α : Type} (q : List α) :
    LSPClient.poll q = (q.getLast?, []) := by
  rw [LSPClient.poll, pollAux_spec q none]
  cases h : q.getLast? <;> rfl

/-! ## Frame-budget theorem -/

/-- C7: the per-frame budget the main loop hands to the render cache's
background fill is `Duration::from_secs(1) / 60`, whose truncated integer
division makes it 16 666 666 ns — strictly smaller than the 60 Hz frame
period of 1/60 s (16 666 666.6... ns).  Stated over the integers:
60 * budget < 1 s in nanoseconds. -/
theorem c7_frame_budget_lt_period :
    60 * extendCacheBudget.toNanos < 1 * NANOS_PER_SEC := by decide

/-! ## Reader-worker framing theorems -/

/-- C8 as stated is false on the code: a header line that is not of the
`key: value` form does not make the reader loop return an error quietly — it
trips `assert_eq!(parts.len(), 2)` (lsp.rs line 122) and panics.  Concretely,
a frame whose first header line is `"garbage"` ends the loop by a panic, not
by an error return. -/
theorem c8_malformed_header_panics_counterexample :
    readerLoop [(["garbage".data], some "x")] = FrameResult.panicked ∧
    FrameResult.panicked ≠ FrameResult.errReturn := by
  constructor
  · decide
  · decide

/-- C8 amended: an unparsable `Content-Length` value or a non-UTF-8 payload
makes the reader worker's message loop terminate quietly by returning an
error; but a header line not of the `key: value` form (no single `": "`
separator) terminates it by a panic instead.  In every case the failure stays
inside the worker thread: nothing is propagated to the caller of the client's
public interface. -/
theorem c8_framing_errors :
    (∀ (hdrs : List (List Char)) (hm : List (List Char × List Char))
        (v : List Char) (payload : Option String)
        (rest : List (List (List Char) × Option String)),
      readHeaders [] hdrs = Sum.inr hm →
      hm.lookup clKey = some v → parseUsize v = none →
      readerLoop ((hdrs, payload) :: rest) = FrameResult.errReturn) ∧
    (∀ (hdrs : List (List Char)) (hm : List (List Char × List Char))
        (v : List Char) (n : Nat)
        (rest : List (List (List Char) × Option String)),
      readHeaders [] hdrs = Sum.inr hm →
      hm.lookup clKey = some v → parseUsize v = some n →
      readerLoop ((hdrs, none) :: rest) = FrameResult.errReturn) ∧
    (∀ (line : List Char) (rest : List (List Char))
        (payload : Option String)
        (frames : List (List (List Char) × Option String)),
      trimChars line ≠ [] → (splitOnCS (trimChars line)).length ≠ 2 →
      readerLoop ((line :: rest, payload) :: frames)
        = FrameResult.panicked) := by
  refine ⟨?_, ?_, ?_⟩
  · intro hdrs hm v payload rest hh hl hp
    simp [readerLoop, processFrame, hh, hl, hp]
  · intro hdrs hm v n rest hh hl hp
    simp [readerLoop, processFrame, hh, hl, hp]
  · intro line rest payload frames hne hlen
    have hh : readHeaders [] (line :: rest)
        = Sum.inl FrameResult.panicked := by
      rw [readHeaders]
      rcases hsp : splitOnCS (trimChars line) with _ | ⟨k, _ | ⟨v, _ | _⟩⟩ <;>
        simp [hne, hsp] <;> simp [hsp] at hlen
    simp [readerLoop, processFrame, hh]

/-- Evaluation of `c8_framing_errors` on three concrete frames: an
unparsable length, a non-UTF-8 payload, and a malformed header line. -/
theorem c8_framing_errors_witness :
    readerLoop [(["Content-Length: abc".data, "".data], some "x")]
      = FrameResult.errReturn ∧
    readerLoop [(["Content-Length: 5".data, "".data], none)]
      = FrameResult.errReturn ∧
    readerLoop [(["bad header".data], some "x")] = FrameResult.panicked :=
  ⟨c8_framing_errors.1 ["Content-Length: abc".data, "".data]
      [("Content-Length".data, "abc".data)] "abc".data (some "x") []
      (by decide) (by decide) (by decide),
    c8_framing_errors.2.1 ["Content-Length: 5".data, "".data]
      [("Content-Length".data, "5".data)] "5".data 5 []
      (by decide) (by decide) (by decide),
    c8_framing_errors.2.2 "bad header".data [] (some "x") [] (by decide)
      (by decide)⟩
